import Mathlib

/-!
Shallow embedding of the noesisBackend FastAPI service (src/main.py,
src/models.py, src/schemas.py).

The database is modelled as lists of rows, one list per table, plus a
fresh-id counter standing for the autoincrement primary keys.  Each HTTP
handler becomes a function `DB → args → Except ApiError Response × DB`:
the returned `DB` is the committed state after the request (handlers that
raise an HTTPException do so before any mutation, so they return the input
state unchanged).  Python's real-valued division in the score-percentage
comparison is modelled with `Rat`, with an explicit `zeroDivisionError`
where Python would raise `ZeroDivisionError`.
-/

/-- Row of the `usuarios` table (models.py, class Usuario). -/
structure Usuario where
  id : Nat
  email : String
  password : String
deriving Repr, DecidableEq

/-- Row of the `favoritos` table (models.py, class Favorito). -/
structure Favorito where
  id : Nat
  usuario_id : Nat
  clase_id : String
  nombre_clase : String
  imagen_path : String
deriving Repr, DecidableEq

/-- Row of the `visitas` table (models.py, class Visita). -/
structure Visita where
  id : Nat
  usuario_id : Nat
  clase_id : String
  count : Int
deriving Repr, DecidableEq

/-- Row of the `puntajes` table (models.py, class Puntaje). -/
structure Puntaje where
  id : Nat
  usuario_id : Nat
  puntaje_obtenido : Int
  puntaje_total : Int
  nivel : String
deriving Repr, DecidableEq

/-- The whole persistent store: four tables plus the id generator. -/
structure DB where
  usuarios : List Usuario
  favoritos : List Favorito
  visitas : List Visita
  puntajes : List Puntaje
  nextId : Nat
deriving Repr, DecidableEq

/-- The empty database, as created at startup. -/
def emptyDB : DB := ⟨[], [], [], [], 0⟩

/-- Errors a handler can surface: an HTTPException with status and detail,
or an uncaught ZeroDivisionError from the percentage computation. -/
inductive ApiError where
  | http (status : Nat) (detail : String)
  | zeroDivisionError
deriving Repr, DecidableEq

/-- Request body for POST favoritos (schemas.py, FavoritoRequest). -/
structure FavoritoRequest where
  clase_id : String
  nombre_clase : String
  imagen_path : String
deriving Repr, DecidableEq

/-- Request body for POST visitas (schemas.py, VisitaRequest). -/
structure VisitaRequest where
  clase_id : String
deriving Repr, DecidableEq

/-- Request body for POST puntajes (schemas.py, PuntajeRequest); the int
fields carry no validation constraints. -/
structure PuntajeRequest where
  puntaje_obtenido : Int
  puntaje_total : Int
  nivel : String
deriving Repr, DecidableEq

/-- Response shape with a single message (schemas.py, MessageResponse). -/
structure MessageResponse where
  message : String
deriving Repr, DecidableEq

/-- Response of the registration endpoint (schemas.py, RegistroResponse). -/
structure RegistroResponse where
  message : String
  email : String
deriving Repr, DecidableEq

/-- Favorite as serialized in responses (schemas.py, FavoritoResponse). -/
structure FavoritoResponse where
  clase_id : String
  nombre_clase : String
  imagen_path : String
deriving Repr, DecidableEq

/-- Response of the add-favorite endpoint (schemas.py, FavoritoAddResponse). -/
structure FavoritoAddResponse where
  message : String
  favorito : FavoritoResponse
deriving Repr, DecidableEq

/-- Response of the list-favorites endpoint (schemas.py, FavoritosUsuarioResponse). -/
structure FavoritosUsuarioResponse where
  email : String
  favoritos : List FavoritoResponse
  total : Nat
deriving Repr, DecidableEq

/-- Visit as serialized in responses (schemas.py, VisitaResponse). -/
structure VisitaResponse where
  clase_id : String
  count : Int
deriving Repr, DecidableEq

/-- Response of the list-visits endpoint (schemas.py, VisitasUsuarioResponse). -/
structure VisitasUsuarioResponse where
  email : String
  visitas : List VisitaResponse
  total_visitas : Int
deriving Repr, DecidableEq

/-- Response of the get-score endpoint (schemas.py, PuntajeResponse). -/
structure PuntajeResponse where
  email : String
  puntaje_obtenido : Int
  puntaje_total : Int
  nivel : String
deriving Repr, DecidableEq

/-- The `data` dict of the submit-score response (main.py lines 335-340). -/
structure PuntajeData where
  is_new_best : Bool
  puntaje_obtenido : Int
  puntaje_total : Int
  nivel : String
deriving Repr, DecidableEq

/-- Response of the submit-score endpoint (schemas.py, PuntajeUpdateResponse). -/
structure PuntajeUpdateResponse where
  message : String
  data : PuntajeData
deriving Repr, DecidableEq

/-- Update the first element of a list satisfying `p` (SQLAlchemy mutates
the single row object returned by `.first()` and commits). -/
def updateFirst (p : α → Bool) (f : α → α) : List α → List α
  | [] => []
  | x :: xs => if p x then f x :: xs else x :: updateFirst p f xs

/-- Remove the first element of a list satisfying `p` (SQLAlchemy deletes
the single row object returned by `.first()`). -/
def removeFirst (p : α → Bool) : List α → List α
  | [] => []
  | x :: xs => if p x then xs else x :: removeFirst p xs

/-- main.py `get_user_by_email`: first user whose email matches. -/
def get_user_by_email (db : DB) (email : String) : Option Usuario :=
  db.usuarios.find? (fun u => u.email == email)

/-- main.py `create_user`: insert the user, then insert the initial score
row (obtenido 0, total 20, nivel "Básico") for it. -/
def create_user (db : DB) (email password : String) : Usuario × DB :=
  (⟨db.nextId, email, password⟩,
   { db with
      usuarios := db.usuarios ++ [⟨db.nextId, email, password⟩],
      puntajes := db.puntajes ++ [⟨db.nextId + 1, db.nextId, 0, 20, "Básico"⟩],
      nextId := db.nextId + 2 })

/-- main.py `registrar_usuario` (POST /usuarios/registro). -/
def registrar_usuario (db : DB) (email password : String) :
    Except ApiError RegistroResponse × DB :=
  match get_user_by_email db email with
  | some _ => (.error (.http 400 "El email ya está registrado"), db)
  | none =>
    let r := create_user db email password
    (.ok ⟨"Usuario registrado exitosamente", email⟩, r.2)

/-- main.py `login_usuario` (POST /usuarios/login). -/
def login_usuario (db : DB) (email password : String) :
    Except ApiError RegistroResponse × DB :=
  match get_user_by_email db email with
  | none => (.error (.http 404 "Usuario no encontrado"), db)
  | some usuario =>
    if usuario.password ≠ password then (.error (.http 401 "Contraseña incorrecta"), db)
    else (.ok ⟨"Login exitoso", email⟩, db)

/-- main.py `eliminar_usuario` (DELETE /usuarios/\x7bemail\x7d): deletes the
user row; the `cascade="all, delete-orphan"` relationships delete every
favorito, visita and puntaje row of that user. -/
def eliminar_usuario (db : DB) (email : String) :
    Except ApiError MessageResponse × DB :=
  match get_user_by_email db email with
  | none => (.error (.http 404 "Usuario no encontrado"), db)
  | some usuario =>
    (.ok ⟨"Usuario, favoritos, visitas y puntajes eliminados exitosamente"⟩,
     { db with
        usuarios := removeFirst (fun u => u.id == usuario.id) db.usuarios,
        favoritos := db.favoritos.filter (fun f => !(f.usuario_id == usuario.id)),
        visitas := db.visitas.filter (fun v => !(v.usuario_id == usuario.id)),
        puntajes := db.puntajes.filter (fun p => !(p.usuario_id == usuario.id)) })

/-- main.py `agregar_favorito` (POST /usuarios/\x7bemail\x7d/favoritos). -/
def agregar_favorito (db : DB) (email : String) (favorito : FavoritoRequest) :
    Except ApiError FavoritoAddResponse × DB :=
  match get_user_by_email db email with
  | none => (.error (.http 404 "Usuario no encontrado"), db)
  | some usuario =>
    match db.favoritos.find?
        (fun f => f.usuario_id == usuario.id && f.clase_id == favorito.clase_id) with
    | some _ => (.error (.http 400 "La clase ya está en favoritos"), db)
    | none =>
      (.ok ⟨"Favorito agregado exitosamente",
            ⟨favorito.clase_id, favorito.nombre_clase, favorito.imagen_path⟩⟩,
       { db with
          favoritos := db.favoritos ++
            [⟨db.nextId, usuario.id, favorito.clase_id, favorito.nombre_clase,
              favorito.imagen_path⟩],
          nextId := db.nextId + 1 })

/-- main.py `remover_favorito` (DELETE /usuarios/\x7bemail\x7d/favoritos/\x7bclase_id\x7d). -/
def remover_favorito (db : DB) (email clase_id : String) :
    Except ApiError MessageResponse × DB :=
  match get_user_by_email db email with
  | none => (.error (.http 404 "Usuario no encontrado"), db)
  | some usuario =>
    match db.favoritos.find?
        (fun f => f.usuario_id == usuario.id && f.clase_id == clase_id) with
    | none => (.error (.http 404 "Favorito no encontrado"), db)
    | some _ =>
      (.ok ⟨"Favorito removido exitosamente"⟩,
       { db with
          favoritos := removeFirst
            (fun f => f.usuario_id == usuario.id && f.clase_id == clase_id) db.favoritos })

/-- main.py `obtener_favoritos_usuario` (GET /usuarios/\x7bemail\x7d/favoritos). -/
def obtener_favoritos_usuario (db : DB) (email : String) :
    Except ApiError FavoritosUsuarioResponse × DB :=
  match get_user_by_email db email with
  | none => (.error (.http 404 "Usuario no encontrado"), db)
  | some usuario =>
    let favoritos := db.favoritos.filter (fun f => f.usuario_id == usuario.id)
    let favoritos_list := favoritos.map
      (fun f => FavoritoResponse.mk f.clase_id f.nombre_clase f.imagen_path)
    (.ok ⟨email, favoritos_list, favoritos_list.length⟩, db)

/-- main.py `actualizar_favorito` (PUT /usuarios/\x7bemail\x7d/favoritos/\x7bclase_id\x7d):
overwrites clase_id, nombre_clase and imagen_path of the matched favorito
in place, with no duplicate check on the new clase_id. -/
def actualizar_favorito (db : DB) (email clase_id : String)
    (favorito_actualizado : FavoritoRequest) :
    Except ApiError MessageResponse × DB :=
  match get_user_by_email db email with
  | none => (.error (.http 404 "Usuario no encontrado"), db)
  | some usuario =>
    match db.favoritos.find?
        (fun f => f.usuario_id == usuario.id && f.clase_id == clase_id) with
    | none => (.error (.http 404 "Favorito no encontrado"), db)
    | some _ =>
      (.ok ⟨"Favorito actualizado exitosamente"⟩,
       { db with
          favoritos := updateFirst
            (fun f => f.usuario_id == usuario.id && f.clase_id == clase_id)
            (fun f => { f with
                clase_id := favorito_actualizado.clase_id,
                nombre_clase := favorito_actualizado.nombre_clase,
                imagen_path := favorito_actualizado.imagen_path }) db.favoritos })

/-- main.py `registrar_visita` (POST /usuarios/\x7bemail\x7d/visitas). -/
def registrar_visita (db : DB) (email : String) (visita : VisitaRequest) :
    Except ApiError MessageResponse × DB :=
  match get_user_by_email db email with
  | none => (.error (.http 404 "Usuario no encontrado"), db)
  | some usuario =>
    match db.visitas.find?
        (fun v => v.usuario_id == usuario.id && v.clase_id == visita.clase_id) with
    | some _ =>
      (.ok ⟨"Visita registrada exitosamente"⟩,
       { db with
          visitas := updateFirst
            (fun v => v.usuario_id == usuario.id && v.clase_id == visita.clase_id)
            (fun v => { v with count := v.count + 1 }) db.visitas })
    | none =>
      (.ok ⟨"Visita registrada exitosamente"⟩,
       { db with
          visitas := db.visitas ++ [⟨db.nextId, usuario.id, visita.clase_id, 1⟩],
          nextId := db.nextId + 1 })

/-- main.py `obtener_visitas_usuario` (GET /usuarios/\x7bemail\x7d/visitas). -/
def obtener_visitas_usuario (db : DB) (email : String) :
    Except ApiError VisitasUsuarioResponse × DB :=
  match get_user_by_email db email with
  | none => (.error (.http 404 "Usuario no encontrado"), db)
  | some usuario =>
    let visitas := db.visitas.filter (fun v => v.usuario_id == usuario.id)
    (.ok ⟨email, visitas.map (fun v => VisitaResponse.mk v.clase_id v.count),
          (visitas.map (fun v => v.count)).sum⟩, db)

/-- main.py `obtener_puntajes_usuario` (GET /usuarios/\x7bemail\x7d/puntajes):
creates the default score row 0/20/"Básico" when none exists. -/
def obtener_puntajes_usuario (db : DB) (email : String) :
    Except ApiError PuntajeResponse × DB :=
  match get_user_by_email db email with
  | none => (.error (.http 404 "Usuario no encontrado"), db)
  | some usuario =>
    match db.puntajes.find? (fun p => p.usuario_id == usuario.id) with
    | some puntaje =>
      (.ok ⟨email, puntaje.puntaje_obtenido, puntaje.puntaje_total, puntaje.nivel⟩, db)
    | none =>
      (.ok ⟨email, 0, 20, "Básico"⟩,
       { db with
          puntajes := db.puntajes ++ [⟨db.nextId, usuario.id, 0, 20, "Básico"⟩],
          nextId := db.nextId + 1 })

/-- Python's `(obtenido / total) * 100` on ints, as exact rational
arithmetic; callers must rule the `total = 0` ZeroDivisionError out
separately, as `actualizar_puntajes_usuario` does. -/
def porcentaje (obtenido total : Int) : Rat :=
  ((obtenido : Rat) / (total : Rat)) * 100

/-- main.py `actualizar_puntajes_usuario` (POST /usuarios/\x7bemail\x7d/puntajes):
creates the score if none exists (is_new_best true), else replaces it only
when the new percentage strictly exceeds the stored one; Python raises
ZeroDivisionError when the stored total (computed first) or the submitted
total is 0. The response always echoes the submitted values. -/
def actualizar_puntajes_usuario (db : DB) (email : String) (req : PuntajeRequest) :
    Except ApiError PuntajeUpdateResponse × DB :=
  match get_user_by_email db email with
  | none => (.error (.http 404 "Usuario no encontrado"), db)
  | some usuario =>
    match db.puntajes.find? (fun p => p.usuario_id == usuario.id) with
    | none =>
      (.ok ⟨"Puntaje procesado exitosamente",
            ⟨true, req.puntaje_obtenido, req.puntaje_total, req.nivel⟩⟩,
       { db with
          puntajes := db.puntajes ++
            [⟨db.nextId, usuario.id, req.puntaje_obtenido, req.puntaje_total, req.nivel⟩],
          nextId := db.nextId + 1 })
    | some puntaje =>
      if puntaje.puntaje_total = 0 then (.error .zeroDivisionError, db)
      else if req.puntaje_total = 0 then (.error .zeroDivisionError, db)
      else if porcentaje req.puntaje_obtenido req.puntaje_total >
              porcentaje puntaje.puntaje_obtenido puntaje.puntaje_total then
        (.ok ⟨"Puntaje procesado exitosamente",
              ⟨true, req.puntaje_obtenido, req.puntaje_total, req.nivel⟩⟩,
         { db with
            puntajes := updateFirst (fun p => p.usuario_id == usuario.id)
              (fun p => { p with
                  puntaje_obtenido := req.puntaje_obtenido,
                  puntaje_total := req.puntaje_total,
                  nivel := req.nivel }) db.puntajes })
      else
        (.ok ⟨"Puntaje procesado exitosamente",
              ⟨false, req.puntaje_obtenido, req.puntaje_total, req.nivel⟩⟩, db)

/-- The declared response model of GET /health (schemas.py, HealthResponse):
seven required fields, no `error` field. -/
structure HealthResponse where
  status : String
  database : String
  usuarios_registrados : Int
  total_favoritos : Int
  total_visitas : Int
  total_puntajes : Int
  database_ok : Bool
deriving Repr, DecidableEq

/-- The raw dict a branch of `health_check` returns, before FastAPI
validates it against HealthResponse: every key optional. -/
structure HealthDict where
  status : Option String
  database : Option String
  usuarios_registrados : Option Int
  total_favoritos : Option Int
  total_visitas : Option Int
  total_puntajes : Option Int
  database_ok : Option Bool
  error : Option String
deriving Repr, DecidableEq

/-- main.py `health_check` (GET /health): `queryError` is the text of the
exception when one of the four count queries raises, `none` when they all
succeed. The try branch returns the full dict with the four row counts;
the except branch returns only status, error and database_ok. -/
def health_check (db : DB) (queryError : Option String) : HealthDict :=
  match queryError with
  | none =>
    ⟨some "healthy", some "SQLite", some db.usuarios.length, some db.favoritos.length,
     some db.visitas.length, some db.puntajes.length, some true, none⟩
  | some e =>
    ⟨some "unhealthy", none, none, none, none, none, some false, some e⟩

/-- FastAPI-side validation of the handler's dict against the declared
response model: succeeds exactly when every required HealthResponse field
is present (extra keys such as `error` are dropped); a missing field makes
the response fail validation, which FastAPI surfaces as an internal server
error instead of the HTTP 200 payload. -/
def validarHealthResponse (d : HealthDict) : Option HealthResponse :=
  match d.status, d.database, d.usuarios_registrados, d.total_favoritos,
        d.total_visitas, d.total_puntajes, d.database_ok with
  | some s, some b, some u, some f, some v, some p, some ok =>
    some ⟨s, b, u, f, v, p, ok⟩
  | _, _, _, _, _, _, _ => none

/-- Invariant of the favoritos table: no two rows share the same
(usuario_id, clase_id) pair. -/
def FavUnique (db : DB) : Prop :=
  db.favoritos.Pairwise
    (fun f g => ¬(f.usuario_id = g.usuario_id ∧ f.clase_id = g.clase_id))

/-! Helper lemmas about the list operations used by the handlers. -/

theorem find?_append_of_none (p : α → Bool) (l₁ l₂ : List α)
    (h : l₁.find? p = none) : (l₁ ++ l₂).find? p = l₂.find? p := by
  simp [List.find?_append, h]

theorem find?_updateFirst (p : α → Bool) (f : α → α) (l : List α) (x : α)
    (hx : l.find? p = some x) (hf : p (f x) = true) :
    (updateFirst p f l).find? p = some (f x) := by
  induction l with
  | nil => simp [List.find?] at hx
  | cons a as ih =>
    by_cases h : p a = true
    · rw [List.find?_cons_of_pos _ h] at hx
      injection hx with hx
      subst hx
      simp [updateFirst, h, List.find?_cons_of_pos _ hf]
    · rw [List.find?_cons_of_neg _ h] at hx
      simp [updateFirst, h, List.find?_cons_of_neg _ h, ih hx]

theorem countP_removeFirst (p q : α → Bool) (l : List α) (x : α)
    (hx : l.find? p = some x) (hq : q x = true) :
    (removeFirst p l).countP q + 1 = l.countP q := by
  induction l with
  | nil => simp [List.find?] at hx
  | cons a as ih =>
    by_cases h : p a = true
    · rw [List.find?_cons_of_pos _ h] at hx
      injection hx with hx
      subst hx
      simp [removeFirst, h, List.countP_cons_of_pos _ _ hq]
    · rw [List.find?_cons_of_neg _ h] at hx
      simp only [removeFirst, if_neg h]
      by_cases hqa : q a = true
      · rw [List.countP_cons_of_pos _ _ hqa, List.countP_cons_of_pos _ _ hqa]
        have := ih hx
        omega
      · rw [List.countP_cons_of_neg _ _ hqa, List.countP_cons_of_neg _ _ hqa]
        exact ih hx

theorem removeFirst_sublist (p : α → Bool) (l : List α) :
    (removeFirst p l).Sublist l := by
  induction l with
  | nil => simp [removeFirst]
  | cons a as ih =>
    by_cases h : p a = true
    · simp only [removeFirst, if_pos h]
      exact (List.Sublist.refl as).cons a
    · simpa [removeFirst, h] using ih.cons₂ a

/-- The percentage comparison of the source, reduced to integer
cross-multiplication when both totals are positive. -/
theorem porcentaje_lt_iff (a b c d : Int) (hb : 0 < b) (hd : 0 < d) :
    porcentaje a b < porcentaje c d ↔ a * d < c * b := by
  unfold porcentaje
  rw [mul_lt_mul_right (by norm_num : (0:Rat) < 100)]
  rw [div_lt_div_iff₀ (by exact_mod_cast hb) (by exact_mod_cast hd)]
  exact ⟨fun h => by exact_mod_cast h, fun h => by exact_mod_cast h⟩

/-! Branch lemmas for the score endpoints. -/

theorem actualizar_eq_of_no_puntaje (db : DB) (email : String) (req : PuntajeRequest)
    (usuario : Usuario) (hu : get_user_by_email db email = some usuario)
    (hp : db.puntajes.find? (fun p => p.usuario_id == usuario.id) = none) :
    actualizar_puntajes_usuario db email req =
      (.ok ⟨"Puntaje procesado exitosamente",
            ⟨true, req.puntaje_obtenido, req.puntaje_total, req.nivel⟩⟩,
       { db with
          puntajes := db.puntajes ++
            [⟨db.nextId, usuario.id, req.puntaje_obtenido, req.puntaje_total, req.nivel⟩],
          nextId := db.nextId + 1 }) := by
  simp [actualizar_puntajes_usuario, hu, hp]

theorem actualizar_eq_of_better (db : DB) (email : String) (req : PuntajeRequest)
    (usuario : Usuario) (old : Puntaje)
    (hu : get_user_by_email db email = some usuario)
    (hp : db.puntajes.find? (fun p => p.usuario_id == usuario.id) = some old)
    (hot : old.puntaje_total ≠ 0) (hnt : req.puntaje_total ≠ 0)
    (hgt : porcentaje req.puntaje_obtenido req.puntaje_total >
           porcentaje old.puntaje_obtenido old.puntaje_total) :
    actualizar_puntajes_usuario db email req =
      (.ok ⟨"Puntaje procesado exitosamente",
            ⟨true, req.puntaje_obtenido, req.puntaje_total, req.nivel⟩⟩,
       { db with
          puntajes := updateFirst (fun p => p.usuario_id == usuario.id)
            (fun p => { p with
                puntaje_obtenido := req.puntaje_obtenido,
                puntaje_total := req.puntaje_total,
                nivel := req.nivel }) db.puntajes }) := by
  simp [actualizar_puntajes_usuario, hu, hp, hot, hnt, hgt]

theorem actualizar_eq_of_not_better (db : DB) (email : String) (req : PuntajeRequest)
    (usuario : Usuario) (old : Puntaje)
    (hu : get_user_by_email db email = some usuario)
    (hp : db.puntajes.find? (fun p => p.usuario_id == usuario.id) = some old)
    (hot : old.puntaje_total ≠ 0) (hnt : req.puntaje_total ≠ 0)
    (hle : porcentaje req.puntaje_obtenido req.puntaje_total ≤
           porcentaje old.puntaje_obtenido old.puntaje_total) :
    actualizar_puntajes_usuario db email req =
      (.ok ⟨"Puntaje procesado exitosamente",
            ⟨false, req.puntaje_obtenido, req.puntaje_total, req.nivel⟩⟩, db) := by
  have hng : ¬ (porcentaje req.puntaje_obtenido req.puntaje_total >
      porcentaje old.puntaje_obtenido old.puntaje_total) := not_lt.mpr hle
  simp [actualizar_puntajes_usuario, hu, hp, hot, hnt, hng]

theorem actualizar_eq_of_zero_total (db : DB) (email : String) (req : PuntajeRequest)
    (usuario : Usuario) (old : Puntaje)
    (hu : get_user_by_email db email = some usuario)
    (hp : db.puntajes.find? (fun p => p.usuario_id == usuario.id) = some old)
    (hz : old.puntaje_total = 0 ∨ req.puntaje_total = 0) :
    actualizar_puntajes_usuario db email req = (.error .zeroDivisionError, db) := by
  rcases hz with hz | hz
  · simp [actualizar_puntajes_usuario, hu, hp, hz]
  · by_cases h0 : old.puntaje_total = 0
    · simp [actualizar_puntajes_usuario, hu, hp, h0]
    · simp [actualizar_puntajes_usuario, hu, hp, h0, hz]

theorem obtener_puntajes_eq_of_none (db : DB) (email : String)
    (usuario : Usuario) (hu : get_user_by_email db email = some usuario)
    (hp : db.puntajes.find? (fun p => p.usuario_id == usuario.id) = none) :
    obtener_puntajes_usuario db email =
      (.ok ⟨email, 0, 20, "Básico"⟩,
       { db with
          puntajes := db.puntajes ++ [⟨db.nextId, usuario.id, 0, 20, "Básico"⟩],
          nextId := db.nextId + 1 }) := by
  simp [obtener_puntajes_usuario, hu, hp]

/-- Conversion between the spec's way of writing the percentage
(100 * obtained / total) and the source's (obtained / total) * 100. -/
theorem porcentaje_eq_spec (a b : Int) :
    100 * (a : Rat) / (b : Rat) = porcentaje a b := by
  unfold porcentaje
  ring

/-- Concrete store with one registered user (id 0) holding the stored
score 10/20 "Básico"; used by witnesses. -/
def oneUserDB : DB := ⟨[⟨0, "a@x.com", "pw"⟩], [], [], [⟨1, 0, 10, 20, "Básico"⟩], 2⟩

/-- Concrete store with one user (id 0) and no score row; used by witnesses. -/
def noScoreDB : DB := ⟨[⟨0, "a@x.com", "pw"⟩], [], [], [], 1⟩

/-- C1: for every submit-score request for a user that already has a stored
score, with both totals nonzero (so the real-valued percentages are defined),
the stored row is replaced by the submitted values exactly when
100*obtained_new/total_new strictly exceeds 100*obtained_old/total_old; when
the new percentage is equal or below, the whole store is unchanged and the
response carries is_new_best = false. -/
theorem C1_score_replace_iff (db : DB) (email : String) (req : PuntajeRequest)
    (usuario : Usuario) (old : Puntaje)
    (hu : get_user_by_email db email = some usuario)
    (hp : db.puntajes.find? (fun p => p.usuario_id == usuario.id) = some old)
    (hot : old.puntaje_total ≠ 0) (hnt : req.puntaje_total ≠ 0) :
    (100 * (req.puntaje_obtenido : Rat) / (req.puntaje_total : Rat) >
       100 * (old.puntaje_obtenido : Rat) / (old.puntaje_total : Rat) →
      (actualizar_puntajes_usuario db email req).2.puntajes =
        updateFirst (fun p => p.usuario_id == usuario.id)
          (fun p => { p with
              puntaje_obtenido := req.puntaje_obtenido,
              puntaje_total := req.puntaje_total,
              nivel := req.nivel }) db.puntajes ∧
      (actualizar_puntajes_usuario db email req).2.puntajes.find?
          (fun p => p.usuario_id == usuario.id) =
        some { old with
            puntaje_obtenido := req.puntaje_obtenido,
            puntaje_total := req.puntaje_total,
            nivel := req.nivel } ∧
      (actualizar_puntajes_usuario db email req).1 =
        .ok ⟨"Puntaje procesado exitosamente",
             ⟨true, req.puntaje_obtenido, req.puntaje_total, req.nivel⟩⟩) ∧
    (100 * (req.puntaje_obtenido : Rat) / (req.puntaje_total : Rat) ≤
       100 * (old.puntaje_obtenido : Rat) / (old.puntaje_total : Rat) →
      (actualizar_puntajes_usuario db email req).2 = db ∧
      (actualizar_puntajes_usuario db email req).1 =
        .ok ⟨"Puntaje procesado exitosamente",
             ⟨false, req.puntaje_obtenido, req.puntaje_total, req.nivel⟩⟩) := by
  rw [porcentaje_eq_spec, porcentaje_eq_spec]
  constructor
  · intro hgt
    rw [actualizar_eq_of_better db email req usuario old hu hp hot hnt hgt]
    refine ⟨rfl, ?_, rfl⟩
    have hf : (fun p => p.usuario_id == usuario.id)
        ({ old with
            puntaje_obtenido := req.puntaje_obtenido,
            puntaje_total := req.puntaje_total,
            nivel := req.nivel } : Puntaje) = true := by
      simpa using List.find?_some hp
    exact find?_updateFirst (fun p => p.usuario_id == usuario.id)
      (fun p => { p with
          puntaje_obtenido := req.puntaje_obtenido,
          puntaje_total := req.puntaje_total,
          nivel := req.nivel }) db.puntajes old hp hf
  · intro hle
    rw [actualizar_eq_of_not_better db email req usuario old hu hp hot hnt hle]
    exact ⟨rfl, rfl⟩

/-- Witness for C1: on the stored score 10/20, submitting 12/20 (60% above
50%) replaces the row and reports a new best, while submitting 11/20 on a
stored 12/20 (55% below 60%) changes nothing and reports no new best. -/
theorem C1_score_replace_iff_witness :
    ((actualizar_puntajes_usuario oneUserDB "a@x.com" ⟨12, 20, "Intermedio"⟩).2.puntajes.find?
        (fun p => p.usuario_id == 0) = some ⟨1, 0, 12, 20, "Intermedio"⟩ ∧
     (actualizar_puntajes_usuario oneUserDB "a@x.com" ⟨12, 20, "Intermedio"⟩).1 =
       .ok ⟨"Puntaje procesado exitosamente", ⟨true, 12, 20, "Intermedio"⟩⟩) ∧
    ((actualizar_puntajes_usuario oneUserDB "a@x.com" ⟨8, 20, "Bajo"⟩).2 = oneUserDB ∧
     (actualizar_puntajes_usuario oneUserDB "a@x.com" ⟨8, 20, "Bajo"⟩).1 =
       .ok ⟨"Puntaje procesado exitosamente", ⟨false, 8, 20, "Bajo"⟩⟩) := by
  have h1 := C1_score_replace_iff oneUserDB "a@x.com" ⟨12, 20, "Intermedio"⟩
    ⟨0, "a@x.com", "pw"⟩ ⟨1, 0, 10, 20, "Básico"⟩ rfl rfl (by decide) (by decide)
  have h2 := C1_score_replace_iff oneUserDB "a@x.com" ⟨8, 20, "Bajo"⟩
    ⟨0, "a@x.com", "pw"⟩ ⟨1, 0, 10, 20, "Básico"⟩ rfl rfl (by decide) (by decide)
  have hgt : (100 : Rat) * ((12 : Int) : Rat) / ((20 : Int) : Rat) >
      100 * ((10 : Int) : Rat) / ((20 : Int) : Rat) := by norm_num
  have hle : (100 : Rat) * ((8 : Int) : Rat) / ((20 : Int) : Rat) ≤
      100 * ((10 : Int) : Rat) / ((20 : Int) : Rat) := by norm_num
  obtain ⟨-, hfind, hresp⟩ := h1.1 hgt
  obtain ⟨hdb, hresp2⟩ := h2.2 hle
  exact ⟨⟨hfind, hresp⟩, ⟨hdb, hresp2⟩⟩

/-- Every successful submit-score response echoes the submitted fields in
its data, whatever branch produced it. -/
theorem actualizar_echo (db : DB) (email : String) (req : PuntajeRequest)
    (resp : PuntajeUpdateResponse) (db' : DB)
    (h : actualizar_puntajes_usuario db email req = (.ok resp, db')) :
    resp.data.puntaje_obtenido = req.puntaje_obtenido ∧
    resp.data.puntaje_total = req.puntaje_total ∧
    resp.data.nivel = req.nivel := by
  unfold actualizar_puntajes_usuario at h
  split at h
  · injection h with h1 h2
    injection h1
  · split at h
    · injection h with h1 h2
      injection h1 with h1
      subst h1
      exact ⟨rfl, rfl, rfl⟩
    · split at h
      · injection h with h1 h2
        injection h1
      · split at h
        · injection h with h1 h2
          injection h1
        · split at h
          · injection h with h1 h2
            injection h1 with h1
            subst h1
            exact ⟨rfl, rfl, rfl⟩
          · injection h with h1 h2
            injection h1 with h1
            subst h1
            exact ⟨rfl, rfl, rfl⟩

/-- C6: submit-score for an existing user with no stored score inserts a
score row carrying exactly the submitted values and answers
is_new_best = true regardless of what was submitted; and every successful
submit-score response echoes the submitted puntaje_obtenido, puntaje_total
and nivel rather than the stored ones. -/
theorem C6_create_and_echo (db : DB) (email : String) (req : PuntajeRequest)
    (usuario : Usuario)
    (hu : get_user_by_email db email = some usuario)
    (hp : db.puntajes.find? (fun p => p.usuario_id == usuario.id) = none) :
    actualizar_puntajes_usuario db email req =
      (.ok ⟨"Puntaje procesado exitosamente",
            ⟨true, req.puntaje_obtenido, req.puntaje_total, req.nivel⟩⟩,
       { db with
          puntajes := db.puntajes ++
            [⟨db.nextId, usuario.id, req.puntaje_obtenido, req.puntaje_total, req.nivel⟩],
          nextId := db.nextId + 1 }) ∧
    (∀ (db₂ : DB) (email₂ : String) (req₂ : PuntajeRequest)
       (resp : PuntajeUpdateResponse) (db₂' : DB),
      actualizar_puntajes_usuario db₂ email₂ req₂ = (.ok resp, db₂') →
      resp.data.puntaje_obtenido = req₂.puntaje_obtenido ∧
      resp.data.puntaje_total = req₂.puntaje_total ∧
      resp.data.nivel = req₂.nivel) := by
  refine ⟨actualizar_eq_of_no_puntaje db email req usuario hu hp, ?_⟩
  intro db₂ email₂ req₂ resp db₂' h
  exact actualizar_echo db₂ email₂ req₂ resp db₂' h

/-- Witness for C6: in a store whose only user has no score row, even the
degenerate submission -5/0 is created verbatim and reported as a new best. -/
theorem C6_create_and_echo_witness :
    actualizar_puntajes_usuario noScoreDB "a@x.com" ⟨-5, 0, "X"⟩ =
      (.ok ⟨"Puntaje procesado exitosamente", ⟨true, -5, 0, "X"⟩⟩,
       ⟨[⟨0, "a@x.com", "pw"⟩], [], [], [⟨1, 0, -5, 0, "X"⟩], 2⟩) :=
  (C6_create_and_echo noScoreDB "a@x.com" ⟨-5, 0, "X"⟩ ⟨0, "a@x.com", "pw"⟩ rfl rfl).1

/-- C9: when a stored score exists and both totals are nonzero the
percentage comparison is well-defined and the handler cannot raise the
division-by-zero error; and because PuntajeRequest carries no validation,
total = 0 is accepted and drives the handler into the division-by-zero
branch whenever either total is 0. -/
theorem C9_division_safety (db : DB) (email : String) (req : PuntajeRequest)
    (usuario : Usuario) (old : Puntaje)
    (hu : get_user_by_email db email = some usuario)
    (hp : db.puntajes.find? (fun p => p.usuario_id == usuario.id) = some old) :
    (old.puntaje_total ≠ 0 → req.puntaje_total ≠ 0 →
      ((actualizar_puntajes_usuario db email req).1).isOk = true) ∧
    (old.puntaje_total = 0 ∨ req.puntaje_total = 0 →
      (actualizar_puntajes_usuario db email req).1 = .error .zeroDivisionError) := by
  constructor
  · intro hot hnt
    by_cases hgt : porcentaje req.puntaje_obtenido req.puntaje_total >
        porcentaje old.puntaje_obtenido old.puntaje_total
    · rw [actualizar_eq_of_better db email req usuario old hu hp hot hnt hgt]
      rfl
    · rw [actualizar_eq_of_not_better db email req usuario old hu hp hot hnt (not_lt.mp hgt)]
      rfl
  · intro hz
    rw [actualizar_eq_of_zero_total db email req usuario old hu hp hz]

/-- Witness for C9: on the stored 10/20 score, submitting 12/20 succeeds,
while submitting 5/0 reaches the ZeroDivisionError branch. -/
theorem C9_division_safety_witness :
    ((actualizar_puntajes_usuario oneUserDB "a@x.com" ⟨12, 20, "Intermedio"⟩).1).isOk = true ∧
    (actualizar_puntajes_usuario oneUserDB "a@x.com" ⟨5, 0, "X"⟩).1 =
      .error .zeroDivisionError := by
  have h1 := C9_division_safety oneUserDB "a@x.com" ⟨12, 20, "Intermedio"⟩
    ⟨0, "a@x.com", "pw"⟩ ⟨1, 0, 10, 20, "Básico"⟩ rfl rfl
  have h2 := C9_division_safety oneUserDB "a@x.com" ⟨5, 0, "X"⟩
    ⟨0, "a@x.com", "pw"⟩ ⟨1, 0, 10, 20, "Básico"⟩ rfl rfl
  exact ⟨h1.1 (by decide) (by decide), h2.2 (Or.inr rfl)⟩

/-- C10: get-score is not read-only and changes a later submission's
verdict — with no stored score a direct submission reports a new best, but
after get-score lazily creates the default 0/20 row, a submission whose
percentage is not strictly above 0 reports is_new_best = false. -/
theorem C10_get_then_submit (db : DB) (email : String) (req : PuntajeRequest)
    (usuario : Usuario)
    (hu : get_user_by_email db email = some usuario)
    (hp : db.puntajes.find? (fun p => p.usuario_id == usuario.id) = none) :
    ((actualizar_puntajes_usuario db email req).1.map (fun r => r.data.is_new_best) =
      .ok true) ∧
    (req.puntaje_total ≠ 0 →
     100 * (req.puntaje_obtenido : Rat) / (req.puntaje_total : Rat) ≤ 0 →
      (actualizar_puntajes_usuario (obtener_puntajes_usuario db email).2 email req).1.map
        (fun r => r.data.is_new_best) = .ok false) := by
  constructor
  · rw [actualizar_eq_of_no_puntaje db email req usuario hu hp]
    rfl
  · intro hnt hle
    rw [obtener_puntajes_eq_of_none db email usuario hu hp]
    have hu' : get_user_by_email
        { db with
           puntajes := db.puntajes ++ [⟨db.nextId, usuario.id, 0, 20, "Básico"⟩],
           nextId := db.nextId + 1 } email = some usuario := hu
    have hp' : ({ db with
        puntajes := db.puntajes ++ [⟨db.nextId, usuario.id, 0, 20, "Básico"⟩],
        nextId := db.nextId + 1 } : DB).puntajes.find?
          (fun p => p.usuario_id == usuario.id) =
        some ⟨db.nextId, usuario.id, 0, 20, "Básico"⟩ := by
      show (db.puntajes ++ [(⟨db.nextId, usuario.id, 0, 20, "Básico"⟩ : Puntaje)]).find?
          (fun p => p.usuario_id == usuario.id) =
        some ⟨db.nextId, usuario.id, 0, 20, "Básico"⟩
      rw [find?_append_of_none _ _ _ hp]
      simp [List.find?]
    have hle' : porcentaje req.puntaje_obtenido req.puntaje_total ≤
        porcentaje (0 : Int) (20 : Int) := by
      have h0 : porcentaje (0 : Int) (20 : Int) = 0 := by
        unfold porcentaje
        norm_num
      rw [porcentaje_eq_spec] at hle
      rw [h0]
      exact hle
    have hot : (⟨db.nextId, usuario.id, 0, 20, "Básico"⟩ : Puntaje).puntaje_total ≠ 0 := by
      show (20 : Int) ≠ 0
      decide
    rw [actualizar_eq_of_not_better
      { db with
         puntajes := db.puntajes ++ [⟨db.nextId, usuario.id, 0, 20, "Básico"⟩],
         nextId := db.nextId + 1 } email req usuario
      ⟨db.nextId, usuario.id, 0, 20, "Básico"⟩ hu' hp' hot hnt hle']
    rfl

/-- Witness for C10: for the user with no score row, submitting 0/20 alone
reports a new best, but get-score followed by the same submission reports
no new best. -/
theorem C10_get_then_submit_witness :
    ((actualizar_puntajes_usuario noScoreDB "a@x.com" ⟨0, 20, "X"⟩).1.map
      (fun r => r.data.is_new_best) = .ok true) ∧
    ((actualizar_puntajes_usuario (obtener_puntajes_usuario noScoreDB "a@x.com").2
        "a@x.com" ⟨0, 20, "X"⟩).1.map (fun r => r.data.is_new_best) = .ok false) := by
  have h := C10_get_then_submit noScoreDB "a@x.com" ⟨0, 20, "X"⟩
    ⟨0, "a@x.com", "pw"⟩ rfl rfl
  exact ⟨h.1, h.2 (by decide) (by norm_num)⟩

/-- C5: recording a visit for an existing user increments the count of the
matching Visit row by exactly 1 when one exists and otherwise inserts a new
row with count 1; and list-visits reports total_visitas equal to the sum of
the count fields of that user's Visit rows. -/
theorem C5_visits (db : DB) (email clase : String) (usuario : Usuario)
    (hu : get_user_by_email db email = some usuario) :
    (db.visitas.find? (fun v => v.usuario_id == usuario.id && v.clase_id == clase) = none →
      registrar_visita db email ⟨clase⟩ =
        (.ok ⟨"Visita registrada exitosamente"⟩,
         { db with
            visitas := db.visitas ++ [⟨db.nextId, usuario.id, clase, 1⟩],
            nextId := db.nextId + 1 })) ∧
    (∀ v, db.visitas.find?
        (fun w => w.usuario_id == usuario.id && w.clase_id == clase) = some v →
      registrar_visita db email ⟨clase⟩ =
        (.ok ⟨"Visita registrada exitosamente"⟩,
         { db with
            visitas := updateFirst
              (fun w => w.usuario_id == usuario.id && w.clase_id == clase)
              (fun w => { w with count := w.count + 1 }) db.visitas }) ∧
      (registrar_visita db email ⟨clase⟩).2.visitas.find?
          (fun w => w.usuario_id == usuario.id && w.clase_id == clase) =
        some { v with count := v.count + 1 }) ∧
    ((obtener_visitas_usuario db email).1.map (fun r => r.total_visitas) =
      .ok (((db.visitas.filter (fun v => v.usuario_id == usuario.id)).map
        (fun v => v.count)).sum)) := by
  refine ⟨?_, ?_, ?_⟩
  · intro hnone
    simp [registrar_visita, hu, hnone]
  · intro v hv
    have heq : registrar_visita db email ⟨clase⟩ =
        (.ok ⟨"Visita registrada exitosamente"⟩,
         { db with
            visitas := updateFirst
              (fun w => w.usuario_id == usuario.id && w.clase_id == clase)
              (fun w => { w with count := w.count + 1 }) db.visitas }) := by
      simp [registrar_visita, hu, hv]
    refine ⟨heq, ?_⟩
    rw [heq]
    have hf : (fun w => w.usuario_id == usuario.id && w.clase_id == clase)
        ({ v with count := v.count + 1 } : Visita) = true := by
      simpa using List.find?_some hv
    exact find?_updateFirst
      (fun w => w.usuario_id == usuario.id && w.clase_id == clase)
      (fun w => { w with count := w.count + 1 }) db.visitas v hv hf
  · simp [obtener_visitas_usuario, hu, Except.map]

/-- Witness for C5: the first visit to class "m1" is stored with count 1,
the second increments it to 2, and total_visitas is the sum of counts. -/
theorem C5_visits_witness :
    registrar_visita noScoreDB "a@x.com" ⟨"m1"⟩ =
      (.ok ⟨"Visita registrada exitosamente"⟩,
       ⟨[⟨0, "a@x.com", "pw"⟩], [], [⟨1, 0, "m1", 1⟩], [], 2⟩) ∧
    (registrar_visita (registrar_visita noScoreDB "a@x.com" ⟨"m1"⟩).2
        "a@x.com" ⟨"m1"⟩).2.visitas.find?
      (fun w => w.usuario_id == 0 && w.clase_id == "m1") = some ⟨1, 0, "m1", 2⟩ ∧
    (obtener_visitas_usuario (registrar_visita noScoreDB "a@x.com" ⟨"m1"⟩).2
        "a@x.com").1.map (fun r => r.total_visitas) = .ok 1 := by
  have h1 := C5_visits noScoreDB "a@x.com" "m1" ⟨0, "a@x.com", "pw"⟩ rfl
  have hstep := h1.1 rfl
  have h2 := C5_visits (registrar_visita noScoreDB "a@x.com" ⟨"m1"⟩).2
    "a@x.com" "m1" ⟨0, "a@x.com", "pw"⟩ (by rw [hstep]; rfl)
  refine ⟨hstep, ?_, ?_⟩
  · have := (h2.2.1 ⟨1, 0, "m1", 1⟩ (by rw [hstep]; rfl)).2
    exact this
  · have := h2.2.2
    rw [hstep] at this
    exact this

/-- C7: duplicate creations fail with HTTP 400 and leave the store
unchanged — registering an already-taken email fails and stores nothing,
adding an already-present (user, clase_id) favorite fails and stores
nothing, and two successive identical add-favorite calls grow that user's
favorite count by exactly 1. -/
theorem C7_duplicate_conflicts (db : DB) (email password : String)
    (fav : FavoritoRequest) (usuario : Usuario)
    (hu : get_user_by_email db email = some usuario) :
    (registrar_usuario db email password =
      (.error (.http 400 "El email ya está registrado"), db)) ∧
    (∀ f, db.favoritos.find?
        (fun g => g.usuario_id == usuario.id && g.clase_id == fav.clase_id) = some f →
      agregar_favorito db email fav =
        (.error (.http 400 "La clase ya está en favoritos"), db)) ∧
    (db.favoritos.find?
        (fun g => g.usuario_id == usuario.id && g.clase_id == fav.clase_id) = none →
      (agregar_favorito db email fav).1.isOk = true ∧
      (agregar_favorito (agregar_favorito db email fav).2 email fav).1 =
        .error (.http 400 "La clase ya está en favoritos") ∧
      (agregar_favorito (agregar_favorito db email fav).2 email fav).2 =
        (agregar_favorito db email fav).2 ∧
      (agregar_favorito (agregar_favorito db email fav).2 email fav).2.favoritos.countP
          (fun g => g.usuario_id == usuario.id) =
        db.favoritos.countP (fun g => g.usuario_id == usuario.id) + 1) := by
  refine ⟨?_, ?_, ?_⟩
  · simp [registrar_usuario, hu]
  · intro f hf
    simp [agregar_favorito, hu, hf]
  · intro hnone
    have h1 : agregar_favorito db email fav =
        (.ok ⟨"Favorito agregado exitosamente",
              ⟨fav.clase_id, fav.nombre_clase, fav.imagen_path⟩⟩,
         { db with
            favoritos := db.favoritos ++
              [⟨db.nextId, usuario.id, fav.clase_id, fav.nombre_clase, fav.imagen_path⟩],
            nextId := db.nextId + 1 }) := by
      simp [agregar_favorito, hu, hnone]
    have hf1 : ({ db with
        favoritos := db.favoritos ++
          [⟨db.nextId, usuario.id, fav.clase_id, fav.nombre_clase, fav.imagen_path⟩],
        nextId := db.nextId + 1 } : DB).favoritos.find?
          (fun g => g.usuario_id == usuario.id && g.clase_id == fav.clase_id) =
        some ⟨db.nextId, usuario.id, fav.clase_id, fav.nombre_clase, fav.imagen_path⟩ := by
      show (db.favoritos ++
          [(⟨db.nextId, usuario.id, fav.clase_id, fav.nombre_clase,
             fav.imagen_path⟩ : Favorito)]).find?
          (fun g => g.usuario_id == usuario.id && g.clase_id == fav.clase_id) =
        some ⟨db.nextId, usuario.id, fav.clase_id, fav.nombre_clase, fav.imagen_path⟩
      rw [find?_append_of_none _ _ _ hnone]
      simp [List.find?]
    have h2 : agregar_favorito ({ db with
        favoritos := db.favoritos ++
          [⟨db.nextId, usuario.id, fav.clase_id, fav.nombre_clase, fav.imagen_path⟩],
        nextId := db.nextId + 1 } : DB) email fav =
        (.error (.http 400 "La clase ya está en favoritos"),
         { db with
            favoritos := db.favoritos ++
              [⟨db.nextId, usuario.id, fav.clase_id, fav.nombre_clase, fav.imagen_path⟩],
            nextId := db.nextId + 1 }) := by
      have hu1 : get_user_by_email ({ db with
          favoritos := db.favoritos ++
            [⟨db.nextId, usuario.id, fav.clase_id, fav.nombre_clase, fav.imagen_path⟩],
          nextId := db.nextId + 1 } : DB) email = some usuario := hu
      simp [agregar_favorito, hu1, hf1]
    rw [h1]
    refine ⟨rfl, ?_, ?_, ?_⟩
    · rw [h2]
    · rw [h2]
    · rw [h2]
      show (db.favoritos ++
          [(⟨db.nextId, usuario.id, fav.clase_id, fav.nombre_clase,
             fav.imagen_path⟩ : Favorito)]).countP
          (fun g => g.usuario_id == usuario.id) =
        db.favoritos.countP (fun g => g.usuario_id == usuario.id) + 1
      rw [List.countP_append]
      simp [List.countP_cons]

/-- Witness for C7: re-registering the taken email fails and changes
nothing; adding the same favorite twice succeeds once, fails once, and
grows the user's favorite count by exactly 1. -/
theorem C7_duplicate_conflicts_witness :
    registrar_usuario noScoreDB "a@x.com" "pw2" =
      (.error (.http 400 "El email ya está registrado"), noScoreDB) ∧
    (agregar_favorito noScoreDB "a@x.com" ⟨"A", "ClaseA", "a.png"⟩).1.isOk = true ∧
    (agregar_favorito (agregar_favorito noScoreDB "a@x.com" ⟨"A", "ClaseA", "a.png"⟩).2
        "a@x.com" ⟨"A", "ClaseA", "a.png"⟩).1 =
      .error (.http 400 "La clase ya está en favoritos") ∧
    (agregar_favorito (agregar_favorito noScoreDB "a@x.com" ⟨"A", "ClaseA", "a.png"⟩).2
        "a@x.com" ⟨"A", "ClaseA", "a.png"⟩).2.favoritos.countP
      (fun g => g.usuario_id == 0) =
      noScoreDB.favoritos.countP (fun g => g.usuario_id == 0) + 1 := by
  have h := C7_duplicate_conflicts noScoreDB "a@x.com" "pw2" ⟨"A", "ClaseA", "a.png"⟩
    ⟨0, "a@x.com", "pw"⟩ rfl
  obtain ⟨hreg, -, hchain⟩ := h
  obtain ⟨ha, hb, -, hc⟩ := hchain rfl
  exact ⟨hreg, ha, hb, hc⟩

/-- Counterexample for C4: registering a fresh email succeeds but stores
the initial score level as "Básico", which is not the claimed "Basic". -/
theorem C4_basic_level_counterexample :
    (registrar_usuario emptyDB "a@x.com" "pw").1.isOk = true ∧
    (registrar_usuario emptyDB "a@x.com" "pw").2.puntajes.map (fun p => p.nivel) =
      ["Básico"] ∧
    ¬ ("Básico" = "Basic") := by
  refine ⟨rfl, rfl, ?_⟩
  decide

/-- C4 (amended): successful registration of a fresh email inserts the User
row with that email and password together with a Score row holding
puntaje_obtenido 0, puntaje_total 20 and nivel "Básico" (the code's label;
the claim wrote "Basic"), and a subsequent get-score for that email returns
exactly those defaults. -/
theorem C4_register_defaults (db : DB) (email password : String)
    (hu : get_user_by_email db email = none)
    (hfresh : ∀ p ∈ db.puntajes, p.usuario_id ≠ db.nextId) :
    registrar_usuario db email password =
      (.ok ⟨"Usuario registrado exitosamente", email⟩,
       { db with
          usuarios := db.usuarios ++ [⟨db.nextId, email, password⟩],
          puntajes := db.puntajes ++ [⟨db.nextId + 1, db.nextId, 0, 20, "Básico"⟩],
          nextId := db.nextId + 2 }) ∧
    obtener_puntajes_usuario (registrar_usuario db email password).2 email =
      (.ok ⟨email, 0, 20, "Básico"⟩, (registrar_usuario db email password).2) := by
  have h1 : registrar_usuario db email password =
      (.ok ⟨"Usuario registrado exitosamente", email⟩,
       { db with
          usuarios := db.usuarios ++ [⟨db.nextId, email, password⟩],
          puntajes := db.puntajes ++ [⟨db.nextId + 1, db.nextId, 0, 20, "Básico"⟩],
          nextId := db.nextId + 2 }) := by
    simp [registrar_usuario, hu, create_user]
  refine ⟨h1, ?_⟩
  have hu' : get_user_by_email (registrar_usuario db email password).2 email =
      some ⟨db.nextId, email, password⟩ := by
    rw [h1]
    show (db.usuarios ++ [(⟨db.nextId, email, password⟩ : Usuario)]).find?
        (fun u => u.email == email) = some ⟨db.nextId, email, password⟩
    rw [find?_append_of_none _ _ _ hu]
    simp [List.find?]
  have hp' : (registrar_usuario db email password).2.puntajes.find?
      (fun p => p.usuario_id == (⟨db.nextId, email, password⟩ : Usuario).id) =
      some ⟨db.nextId + 1, db.nextId, 0, 20, "Básico"⟩ := by
    rw [h1]
    show (db.puntajes ++ [(⟨db.nextId + 1, db.nextId, 0, 20, "Básico"⟩ : Puntaje)]).find?
        (fun p => p.usuario_id == db.nextId) =
      some ⟨db.nextId + 1, db.nextId, 0, 20, "Básico"⟩
    have hn : db.puntajes.find? (fun p => p.usuario_id == db.nextId) = none := by
      rw [List.find?_eq_none]
      intro p hpmem
      simpa using hfresh p hpmem
    rw [find?_append_of_none _ _ _ hn]
    simp [List.find?]
  simp [obtener_puntajes_usuario, hu', hp']

/-- Witness for C4 (amended): registering on the empty store creates user 0
with the 0/20/"Básico" score, and get-score then returns those defaults. -/
theorem C4_register_defaults_witness :
    registrar_usuario emptyDB "a@x.com" "pw" =
      (.ok ⟨"Usuario registrado exitosamente", "a@x.com"⟩,
       ⟨[⟨0, "a@x.com", "pw"⟩], [], [], [⟨1, 0, 0, 20, "Básico"⟩], 2⟩) ∧
    obtener_puntajes_usuario (registrar_usuario emptyDB "a@x.com" "pw").2 "a@x.com" =
      (.ok ⟨"a@x.com", 0, 20, "Básico"⟩, (registrar_usuario emptyDB "a@x.com" "pw").2) := by
  have h := C4_register_defaults emptyDB "a@x.com" "pw" rfl (by simp [emptyDB])
  exact ⟨h.1, h.2⟩

/-- Concrete store with one user owning a favorito, a visita and a puntaje
row; used by the C8 witness. -/
def fullDB : DB :=
  ⟨[⟨0, "a@x.com", "pw"⟩], [⟨2, 0, "A", "ClaseA", "a.png"⟩], [⟨3, 0, "A", 4⟩],
   [⟨1, 0, 10, 20, "Básico"⟩], 4⟩

/-- C8: deleting an existing user (its id locating exactly its own row, and
no second user sharing the email) removes the User row and every Favorito,
Visita and Puntaje row of that user, after which the favorites, visits and
score queries for that email all answer 404; deleting an unknown email
answers 404 and changes nothing. -/
theorem C8_delete_cascade (db : DB) (email : String) (usuario : Usuario)
    (hu : get_user_by_email db email = some usuario)
    (hid : db.usuarios.find? (fun u => u.id == usuario.id) = some usuario)
    (huniq : db.usuarios.countP (fun u => u.email == email) ≤ 1) :
    (eliminar_usuario db email).1 =
      .ok ⟨"Usuario, favoritos, visitas y puntajes eliminados exitosamente"⟩ ∧
    get_user_by_email (eliminar_usuario db email).2 email = none ∧
    (∀ f ∈ (eliminar_usuario db email).2.favoritos, f.usuario_id ≠ usuario.id) ∧
    (∀ v ∈ (eliminar_usuario db email).2.visitas, v.usuario_id ≠ usuario.id) ∧
    (∀ p ∈ (eliminar_usuario db email).2.puntajes, p.usuario_id ≠ usuario.id) ∧
    (obtener_favoritos_usuario (eliminar_usuario db email).2 email).1 =
      .error (.http 404 "Usuario no encontrado") ∧
    (obtener_visitas_usuario (eliminar_usuario db email).2 email).1 =
      .error (.http 404 "Usuario no encontrado") ∧
    (obtener_puntajes_usuario (eliminar_usuario db email).2 email).1 =
      .error (.http 404 "Usuario no encontrado") ∧
    (∀ (db₂ : DB) (email₂ : String), get_user_by_email db₂ email₂ = none →
      eliminar_usuario db₂ email₂ = (.error (.http 404 "Usuario no encontrado"), db₂)) := by
  have heq : eliminar_usuario db email =
      (.ok ⟨"Usuario, favoritos, visitas y puntajes eliminados exitosamente"⟩,
       { db with
          usuarios := removeFirst (fun u => u.id == usuario.id) db.usuarios,
          favoritos := db.favoritos.filter (fun f => !(f.usuario_id == usuario.id)),
          visitas := db.visitas.filter (fun v => !(v.usuario_id == usuario.id)),
          puntajes := db.puntajes.filter (fun p => !(p.usuario_id == usuario.id)) }) := by
    simp [eliminar_usuario, hu]
  have hu0 : db.usuarios.find? (fun u => u.email == email) = some usuario := hu
  have hqu := List.find?_some hu0
  have hcount : (removeFirst (fun u => u.id == usuario.id) db.usuarios).countP
      (fun u => u.email == email) = 0 := by
    have h2 := countP_removeFirst (fun u => u.id == usuario.id)
      (fun u => u.email == email) db.usuarios usuario hid hqu
    omega
  have hnone : get_user_by_email (eliminar_usuario db email).2 email = none := by
    rw [heq]
    show (removeFirst (fun u => u.id == usuario.id) db.usuarios).find?
        (fun u => u.email == email) = none
    rw [List.find?_eq_none]
    intro u hu2
    exact List.countP_eq_zero.mp hcount u hu2
  refine ⟨by rw [heq], hnone, ?_, ?_, ?_, ?_, ?_, ?_, ?_⟩
  · intro f hf
    rw [heq] at hf
    simpa using (List.mem_filter.mp hf).2
  · intro v hv
    rw [heq] at hv
    simpa using (List.mem_filter.mp hv).2
  · intro p hp
    rw [heq] at hp
    simpa using (List.mem_filter.mp hp).2
  · simp [obtener_favoritos_usuario, hnone]
  · simp [obtener_visitas_usuario, hnone]
  · simp [obtener_puntajes_usuario, hnone]
  · intro db₂ email₂ h
    simp [eliminar_usuario, h]

/-- Witness for C8: deleting the only user of the populated store reports
success and every later favorites/visits/score lookup answers 404, while
deleting an email absent from the empty store answers 404 unchanged. -/
theorem C8_delete_cascade_witness :
    (eliminar_usuario fullDB "a@x.com").1 =
      .ok ⟨"Usuario, favoritos, visitas y puntajes eliminados exitosamente"⟩ ∧
    get_user_by_email (eliminar_usuario fullDB "a@x.com").2 "a@x.com" = none ∧
    (obtener_favoritos_usuario (eliminar_usuario fullDB "a@x.com").2 "a@x.com").1 =
      .error (.http 404 "Usuario no encontrado") ∧
    (obtener_visitas_usuario (eliminar_usuario fullDB "a@x.com").2 "a@x.com").1 =
      .error (.http 404 "Usuario no encontrado") ∧
    (obtener_puntajes_usuario (eliminar_usuario fullDB "a@x.com").2 "a@x.com").1 =
      .error (.http 404 "Usuario no encontrado") ∧
    eliminar_usuario emptyDB "z@x.com" =
      (.error (.http 404 "Usuario no encontrado"), emptyDB) := by
  have h := C8_delete_cascade fullDB "a@x.com" ⟨0, "a@x.com", "pw"⟩ rfl rfl (by decide)
  obtain ⟨h1, h2, -, -, -, h6, h7, h8, h9⟩ := h
  exact ⟨h1, h2, h6, h7, h8, h9 emptyDB "z@x.com" rfl⟩

/-- State after registering the user of the C2 scenario. -/
def c2db1 : DB := (registrar_usuario emptyDB "a@x.com" "pw").2

/-- State after additionally bookmarking class "A". -/
def c2db2 : DB := (agregar_favorito c2db1 "a@x.com" ⟨"A", "ClaseA", "a.png"⟩).2

/-- State after additionally bookmarking class "B". -/
def c2db3 : DB := (agregar_favorito c2db2 "a@x.com" ⟨"B", "ClaseB", "b.png"⟩).2

/-- State after updating the "A" favorite, renaming its clase_id to "B". -/
def c2db4 : DB := (actualizar_favorito c2db3 "a@x.com" "A" ⟨"B", "ClaseB2", "b2.png"⟩).2

/-- Counterexample for C2: from the empty store, register a user, bookmark
classes "A" and "B", then update the "A" favorite renaming its clase_id to
"B"; every step succeeds, yet the reachable state c2db4 holds two Favorito
rows with the same (usuario_id, clase_id) pair — update-favorite does not
preserve the invariant. -/
theorem C2_favorite_unique_counterexample :
    (registrar_usuario emptyDB "a@x.com" "pw").1.isOk = true ∧
    (agregar_favorito c2db1 "a@x.com" ⟨"A", "ClaseA", "a.png"⟩).1.isOk = true ∧
    (agregar_favorito c2db2 "a@x.com" ⟨"B", "ClaseB", "b.png"⟩).1.isOk = true ∧
    (actualizar_favorito c2db3 "a@x.com" "A" ⟨"B", "ClaseB2", "b2.png"⟩).1.isOk = true ∧
    ¬ FavUnique c2db4 := by
  refine ⟨rfl, rfl, rfl, rfl, ?_⟩
  intro h
  have hfav : c2db4.favoritos =
      [⟨2, 0, "B", "ClaseB2", "b2.png"⟩, ⟨3, 0, "B", "ClaseB", "b.png"⟩] := rfl
  unfold FavUnique at h
  rw [hfav] at h
  have h2 := List.pairwise_cons.mp h
  exact h2.1 ⟨3, 0, "B", "ClaseB", "b.png"⟩ (by simp) ⟨rfl, rfl⟩

/-- C2 (amended): the at-most-one-Favorito-per-(usuario_id, clase_id)
invariant is preserved by register, add-favorite, remove-favorite and
delete-user — including their failure paths, which leave the store
untouched — but not by update-favorite, which can rename a favorite's
clase_id onto a pair the user already has (see the counterexample). -/
theorem C2_favorite_unique_preserved (db : DB) (h : FavUnique db) :
    (∀ email password, FavUnique (registrar_usuario db email password).2) ∧
    (∀ email fav, FavUnique (agregar_favorito db email fav).2) ∧
    (∀ email clase_id, FavUnique (remover_favorito db email clase_id).2) ∧
    (∀ email, FavUnique (eliminar_usuario db email).2) := by
  refine ⟨?_, ?_, ?_, ?_⟩
  · intro email password
    unfold FavUnique at h ⊢
    cases hcase : get_user_by_email db email with
    | some u => simpa [registrar_usuario, hcase] using h
    | none => simpa [registrar_usuario, hcase, create_user] using h
  · intro email fav
    unfold FavUnique at h ⊢
    cases hcase : get_user_by_email db email with
    | none => simpa [agregar_favorito, hcase] using h
    | some usuario =>
      cases hfind : db.favoritos.find?
          (fun f => f.usuario_id == usuario.id && f.clase_id == fav.clase_id) with
      | some f => simpa [agregar_favorito, hcase, hfind] using h
      | none =>
        have hfavs : (agregar_favorito db email fav).2.favoritos =
            db.favoritos ++
              [⟨db.nextId, usuario.id, fav.clase_id, fav.nombre_clase, fav.imagen_path⟩] := by
          simp [agregar_favorito, hcase, hfind]
        rw [hfavs, List.pairwise_append]
        refine ⟨h, by simp, ?_⟩
        intro a ha b hb
        simp only [List.mem_singleton] at hb
        subst hb
        rintro ⟨h1, h2⟩
        have hnot := List.find?_eq_none.mp hfind a ha
        simp only [h1, h2] at hnot
        simp at hnot
  · intro email clase_id
    unfold FavUnique at h ⊢
    cases hcase : get_user_by_email db email with
    | none => simpa [remover_favorito, hcase] using h
    | some usuario =>
      cases hfind : db.favoritos.find?
          (fun f => f.usuario_id == usuario.id && f.clase_id == clase_id) with
      | none => simpa [remover_favorito, hcase, hfind] using h
      | some f =>
        have hfavs : (remover_favorito db email clase_id).2.favoritos =
            removeFirst (fun f => f.usuario_id == usuario.id && f.clase_id == clase_id)
              db.favoritos := by
          simp [remover_favorito, hcase, hfind]
        rw [hfavs]
        exact List.Pairwise.sublist (removeFirst_sublist _ _) h
  · intro email
    unfold FavUnique at h ⊢
    cases hcase : get_user_by_email db email with
    | none => simpa [eliminar_usuario, hcase] using h
    | some usuario =>
      have hfavs : (eliminar_usuario db email).2.favoritos =
          db.favoritos.filter (fun f => !(f.usuario_id == usuario.id)) := by
        simp [eliminar_usuario, hcase]
      rw [hfavs]
      exact List.Pairwise.sublist (List.filter_sublist _) h

/-- Witness for C2 (amended): the empty store satisfies the invariant and
each of the four preserved operations keeps it there. -/
theorem C2_favorite_unique_preserved_witness :
    FavUnique emptyDB ∧
    FavUnique (registrar_usuario emptyDB "a@x.com" "pw").2 ∧
    FavUnique (agregar_favorito emptyDB "a@x.com" ⟨"A", "ClaseA", "a.png"⟩).2 ∧
    FavUnique (remover_favorito emptyDB "a@x.com" "A").2 ∧
    FavUnique (eliminar_usuario emptyDB "a@x.com").2 := by
  have h0 : FavUnique emptyDB := List.Pairwise.nil
  have h := C2_favorite_unique_preserved emptyDB h0
  exact ⟨h0, h.1 "a@x.com" "pw", h.2.1 "a@x.com" ⟨"A", "ClaseA", "a.png"⟩,
         h.2.2.1 "a@x.com" "A", h.2.2.2 "a@x.com"⟩

/-- C3: the healthy branch of the health check passes response-model
validation and reports status "healthy", database_ok true and the exact row
counts of the four tables; the unhealthy branch (here with exception text
"db error") reports status "unhealthy", the error text and database_ok
false but omits the five remaining required HealthResponse fields, so it
fails the declared response-model validation instead of going out as an
HTTP 200 response of that shape as the claim states. -/
theorem C3_health_check_divergence :
    (∀ db : DB, validarHealthResponse (health_check db none) =
      some ⟨"healthy", "SQLite", db.usuarios.length, db.favoritos.length,
            db.visitas.length, db.puntajes.length, true⟩) ∧
    (health_check emptyDB (some "db error")).status = some "unhealthy" ∧
    (health_check emptyDB (some "db error")).error = some "db error" ∧
    (health_check emptyDB (some "db error")).database_ok = some false ∧
    validarHealthResponse (health_check emptyDB (some "db error")) = none :=
  ⟨fun _ => rfl, rfl, rfl, rfl, rfl⟩
